import Mathlib

/-
Verification of the OAuth2 PKCE authentication flow of the trino-oauth-demo
repository (React frontend, Express backend).

Shallow embedding conventions:
  - Browser session storage is a list of string key/value pairs; getItem
    returns an Option (JS null is none).
  - JS truthiness of a possibly-null string is modelled by truthy below.
  - Randomness (crypto.getRandomValues) and the SHA-256 digest
    (crypto.subtle.digest) are external collaborators: the generated
    state/nonce/verifier and the hash function are passed as arguments.
  - The two network calls (token exchange, refresh) are suspension points
    whose outcome is passed in as a FetchOutcome value.
  - JS numbers appearing in token claims (the exp claim) are modelled as
    integers; JSON number literals with a fraction or exponent are not
    modelled (the parser rejects them).
-/

/-! ## Session storage -/

/-- Browser sessionStorage, modelled as an association list. -/
abbrev Store := List (String × String)

/-- sessionStorage.getItem: null (none) when the key is absent. -/
def Store.getItem : Store → String → Option String
  | [], _ => none
  | (k1, v) :: rest, k => if k1 = k then some v else Store.getItem rest k

/-- sessionStorage.removeItem. -/
def Store.removeItem : Store → String → Store
  | [], _ => []
  | (k1, v) :: rest, k =>
    if k1 = k then Store.removeItem rest k else (k1, v) :: Store.removeItem rest k

/-- sessionStorage.setItem (overwrites any previous value of the key). -/
def Store.setItem (st : Store) (k v : String) : Store :=
  (k, v) :: Store.removeItem st k

/-- sessionStorage.clear. -/
def Store.clearAll (_st : Store) : Store := []

/-! ## JavaScript value helpers -/

/-- JS truthiness of a string-or-null value: null, undefined and the empty
string are falsy. -/
def truthy : Option String → Bool
  | none => false
  | some s => s != ""

/-- The JS expression a or-else b on string-or-null values. -/
def jsOr (a b : Option String) : Option String :=
  if truthy a then a else b

/-- The JS expression a or-else b where b is a plain (non-null) string. -/
def jsOrD (a : Option String) (b : String) : String :=
  match a with
  | some s => if s = "" then b else s
  | none => b

/-- Coercion applied by sessionStorage.setItem and template literals to a
possibly-undefined string (undefined prints as the string undefined). -/
def jsStr (v : Option String) : String :=
  v.getD "undefined"

/-! ## Character-list utilities (String.prototype methods) -/

/-- JS String.prototype.split with a one-character separator.
Mirrors JS semantics: splitting the empty string yields one empty segment. -/
def splitOnChar (sep : Char) : List Char → List (List Char)
  | [] => [[]]
  | c :: cs =>
    let r := splitOnChar sep cs
    if c = sep then [] :: r
    else
      match r with
      | g :: gs => (c :: g) :: gs
      | [] => [[c]]

/-- JS String.prototype.startsWith, on character lists. -/
def charsStartWith : List Char → List Char → Bool
  | [], _ => true
  | _ :: _, [] => false
  | p :: ps, c :: cs => p == c && charsStartWith ps cs

/-! ## Base64 (btoa / atob) and base64url -/

/-- The standard base64 alphabet used by btoa. -/
def b64StdChars : List Char :=
  "ABCDEFGHIJKLMNOPQRSTUVWXYZabcdefghijklmnopqrstuvwxyz0123456789+/".toList

/-- The URL-safe base64 alphabet (RFC 4648 section 5). -/
def b64UrlChars : List Char :=
  "ABCDEFGHIJKLMNOPQRSTUVWXYZabcdefghijklmnopqrstuvwxyz0123456789-_".toList

/-- Character of a six-bit group in the standard alphabet. -/
def b64StdChar (n : Nat) : Char := b64StdChars.getD n 'A'

/-- Character of a six-bit group in the URL-safe alphabet. -/
def b64UrlChar (n : Nat) : Char := b64UrlChars.getD n 'A'

/-- btoa applied to a byte sequence (the source builds a latin-1 string with
String.fromCharCode over a Uint8Array and feeds it to btoa): standard
base64 with padding, as a character list. -/
def btoaChars : List Nat → List Char
  | [] => []
  | [b1] =>
    [b64StdChar (b1 / 4), b64StdChar (b1 % 4 * 16), '=', '=']
  | [b1, b2] =>
    [b64StdChar (b1 / 4), b64StdChar (b1 % 4 * 16 + b2 / 16),
     b64StdChar (b2 % 16 * 4), '=']
  | b1 :: b2 :: b3 :: rest =>
    b64StdChar (b1 / 4) :: b64StdChar (b1 % 4 * 16 + b2 / 16) ::
    b64StdChar (b2 % 16 * 4 + b3 / 64) :: b64StdChar (b3 % 64) ::
    btoaChars rest

/-- The character substitution performed by base64UrlEncode in oauth.js:
replace every plus with a dash and every slash with an underscore. -/
def b64UrlSubst (c : Char) : Char :=
  if c = '+' then '-' else if c = '/' then '_' else c

/-- base64UrlEncode from oauth.js: btoa, then the global replacements
plus-to-dash and slash-to-underscore, then removal of every padding sign. -/
def base64UrlEncode (bytes : List Nat) : String :=
  String.mk (((btoaChars bytes).map b64UrlSubst).filter (fun c => c != '='))

/-- Direct unpadded base64url encoding, written from the words of the
specification (base64url alphabet, no padding characters); used to check
that base64UrlEncode implements exactly that. -/
def base64UrlDirect : List Nat → String
  | [] => ""
  | [b1] =>
    String.mk [b64UrlChar (b1 / 4), b64UrlChar (b1 % 4 * 16)]
  | [b1, b2] =>
    String.mk [b64UrlChar (b1 / 4), b64UrlChar (b1 % 4 * 16 + b2 / 16),
               b64UrlChar (b2 % 16 * 4)]
  | b1 :: b2 :: b3 :: rest =>
    String.mk [b64UrlChar (b1 / 4), b64UrlChar (b1 % 4 * 16 + b2 / 16),
               b64UrlChar (b2 % 16 * 4 + b3 / 64), b64UrlChar (b3 % 64)] ++
    base64UrlDirect rest

/-- Numeric value of a base64 alphabet character (after the url-to-standard
fixup), none for characters outside the alphabet. -/
def b64CharVal (c : Char) : Option Nat :=
  b64StdChars.findIdx? (fun d => d == c)

/-- ASCII whitespace, removed by the forgiving base64 decode of atob. -/
def isAsciiWs (c : Char) : Bool :=
  c = ' ' || c = '\t' || c = '\n' || c = '\x0c' || c = '\r'

/-- Decode six-bit group values to bytes; leftover bits of a final group
of two or three characters are discarded (forgiving base64). -/
def b64DecodeVals : List Nat → List Nat
  | v1 :: v2 :: v3 :: v4 :: rest =>
    (v1 * 4 + v2 / 16) :: (v2 % 16 * 16 + v3 / 4) :: (v3 % 4 * 64 + v4) ::
    b64DecodeVals rest
  | [v1, v2] => [v1 * 4 + v2 / 16]
  | [v1, v2, v3] => [v1 * 4 + v2 / 16, v2 % 16 * 16 + v3 / 4]
  | _ => []

/-- atob on a character list: the forgiving-base64 decode (strip ASCII
whitespace, strip up to two trailing padding signs when the length is a
multiple of four, fail on a remainder of one or on characters outside the
alphabet), yielding bytes; none models the exception atob throws. -/
def atobChars (cs : List Char) : Option (List Nat) :=
  let cs1 := cs.filter (fun c => !isAsciiWs c)
  let cs2 :=
    if cs1.length % 4 = 0 then
      match cs1.reverse with
      | '=' :: '=' :: r => r.reverse
      | '=' :: r => r.reverse
      | _ => cs1
    else cs1
  if cs2.length % 4 = 1 then none
  else if cs2.any (fun c => (b64CharVal c).isNone) then none
  else some (b64DecodeVals (cs2.filterMap b64CharVal))

/-- atob on strings, producing the latin-1 string of the decoded bytes
(atob does not UTF-8-decode). -/
def atobStr (s : String) : Option String :=
  (atobChars s.toList).map (fun bytes => String.mk (bytes.map Char.ofNat))

/-- UTF-8 encoding of one character (TextEncoder semantics). -/
def utf8EncodeChar (c : Char) : List Nat :=
  let n := c.toNat
  if n < 128 then [n]
  else if n < 2048 then [192 + n / 64, 128 + n % 64]
  else if n < 65536 then [224 + n / 4096, 128 + n / 64 % 64, 128 + n % 64]
  else [240 + n / 262144, 128 + n / 4096 % 64, 128 + n / 64 % 64, 128 + n % 64]

/-- UTF-8 encoding of a string (TextEncoder.encode). -/
def utf8Encode (s : String) : List Nat :=
  (s.toList.map utf8EncodeChar).flatten

/-! ## JSON values (JSON.parse / JSON.stringify) -/

/-- JSON values; numbers are modelled as integers (see the file header). -/
inductive Json where
  | null
  | bool (b : Bool)
  | num (n : Int)
  | str (s : String)
  | arr (xs : List Json)
  | obj (fields : List (String × Json))

/-- Skip JSON whitespace. -/
def skipWs : List Char → List Char
  | c :: cs =>
    if c = ' ' ∨ c = '\t' ∨ c = '\n' ∨ c = '\r' then skipWs cs else c :: cs
  | [] => []

/-- Value of a hexadecimal digit. -/
def hexVal (c : Char) : Option Nat :=
  if '0' ≤ c ∧ c ≤ '9' then some (c.toNat - '0'.toNat)
  else if 'a' ≤ c ∧ c ≤ 'f' then some (c.toNat - 'a'.toNat + 10)
  else if 'A' ≤ c ∧ c ≤ 'F' then some (c.toNat - 'A'.toNat + 10)
  else none

/-- Parse the body of a JSON string literal (the opening quote already
consumed). Unicode escapes denote the character with that code point
(surrogate-pair recombination is not modelled). -/
def parseStrBody (fuel : Nat) (cs : List Char) (acc : List Char) :
    Option (String × List Char) :=
  match fuel with
  | 0 => none
  | fuel + 1 =>
    match cs with
    | [] => none
    | '"' :: rest => some (String.mk acc.reverse, rest)
    | '\\' :: e :: rest =>
      match e with
      | '"' => parseStrBody fuel rest ('"' :: acc)
      | '\\' => parseStrBody fuel rest ('\\' :: acc)
      | '/' => parseStrBody fuel rest ('/' :: acc)
      | 'b' => parseStrBody fuel rest ('\x08' :: acc)
      | 'f' => parseStrBody fuel rest ('\x0c' :: acc)
      | 'n' => parseStrBody fuel rest ('\n' :: acc)
      | 'r' => parseStrBody fuel rest ('\r' :: acc)
      | 't' => parseStrBody fuel rest ('\t' :: acc)
      | 'u' =>
        match rest with
        | h1 :: h2 :: h3 :: h4 :: rest2 =>
          match hexVal h1, hexVal h2, hexVal h3, hexVal h4 with
          | some a, some b, some c, some d =>
            parseStrBody fuel rest2
              (Char.ofNat (a * 4096 + b * 256 + c * 16 + d) :: acc)
          | _, _, _, _ => none
        | _ => none
      | _ => none
    | c :: rest => parseStrBody fuel rest (c :: acc)

/-- Parse an unsigned decimal integer, returning it with the rest. -/
def parseDigits (fuel : Nat) (cs : List Char) (acc : Nat) (seen : Bool) :
    Option (Nat × List Char) :=
  match fuel with
  | 0 => none
  | fuel + 1 =>
    match cs with
    | c :: rest =>
      if c.isDigit then
        parseDigits fuel rest (acc * 10 + (c.toNat - '0'.toNat)) true
      else if seen then some (acc, cs) else none
    | [] => if seen then some (acc, []) else none

mutual

/-- Parse one JSON value. -/
def parseVal (fuel : Nat) (cs : List Char) : Option (Json × List Char) :=
  match fuel with
  | 0 => none
  | fuel + 1 =>
    match skipWs cs with
    | '{' :: rest =>
      match skipWs rest with
      | '}' :: rest2 => some (Json.obj [], rest2)
      | rest2 => parseFields fuel rest2 []
    | '[' :: rest =>
      match skipWs rest with
      | ']' :: rest2 => some (Json.arr [], rest2)
      | rest2 => parseItems fuel rest2 []
    | '"' :: rest =>
      match parseStrBody fuel rest [] with
      | some (s, rest2) => some (Json.str s, rest2)
      | none => none
    | 't' :: 'r' :: 'u' :: 'e' :: rest => some (Json.bool true, rest)
    | 'f' :: 'a' :: 'l' :: 's' :: 'e' :: rest => some (Json.bool false, rest)
    | 'n' :: 'u' :: 'l' :: 'l' :: rest => some (Json.null, rest)
    | '-' :: rest =>
      match parseDigits fuel rest 0 false with
      | some (n, rest2) =>
        match rest2 with
        | '.' :: _ => none
        | 'e' :: _ => none
        | 'E' :: _ => none
        | _ => some (Json.num (-(n : Int)), rest2)
      | none => none
    | cs2 =>
      match parseDigits fuel cs2 0 false with
      | some (n, rest2) =>
        match rest2 with
        | '.' :: _ => none
        | 'e' :: _ => none
        | 'E' :: _ => none
        | _ => some (Json.num (n : Int), rest2)
      | none => none

/-- Parse the members of a JSON object (after the opening brace, at the
first key), accumulating in reverse. -/
def parseFields (fuel : Nat) (cs : List Char)
    (acc : List (String × Json)) : Option (Json × List Char) :=
  match fuel with
  | 0 => none
  | fuel + 1 =>
    match skipWs cs with
    | '"' :: rest =>
      match parseStrBody fuel rest [] with
      | some (k, rest2) =>
        match skipWs rest2 with
        | ':' :: rest3 =>
          match parseVal fuel rest3 with
          | some (v, rest4) =>
            match skipWs rest4 with
            | ',' :: rest5 => parseFields fuel rest5 ((k, v) :: acc)
            | '}' :: rest5 => some (Json.obj ((k, v) :: acc).reverse, rest5)
            | _ => none
          | none => none
        | _ => none
      | none => none
    | _ => none

/-- Parse the elements of a JSON array (after the opening bracket, at the
first element), accumulating in reverse. -/
def parseItems (fuel : Nat) (cs : List Char) (acc : List Json) :
    Option (Json × List Char) :=
  match fuel with
  | 0 => none
  | fuel + 1 =>
    match parseVal fuel cs with
    | some (v, rest) =>
      match skipWs rest with
      | ',' :: rest2 => parseItems fuel rest2 (v :: acc)
      | ']' :: rest2 => some (Json.arr (v :: acc).reverse, rest2)
      | _ => none
    | none => none

end

/-- JSON.parse: parse one value and require only whitespace after it. -/
def jsonParse (s : String) : Option Json :=
  match parseVal (8 * (s.toList.length + 1)) s.toList with
  | some (v, rest) =>
    match skipWs rest with
    | [] => some v
    | _ => none
  | none => none

/-- JS property access on a decoded JSON value: a field of an object
(undefined, that is none, for a missing field or a non-object); with
duplicate keys JSON.parse keeps the last one. -/
def Json.getField : Json → String → Option Json
  | Json.obj fields, k => List.lookup k fields.reverse
  | _, _ => none

/-- JS truthiness of a possibly-undefined JSON value. -/
def jsonTruthy : Option Json → Bool
  | none => false
  | some Json.null => false
  | some (Json.bool b) => b
  | some (Json.num n) => n != 0
  | some (Json.str s) => s != ""
  | some (Json.arr _) => true
  | some (Json.obj _) => true

/-- The JS expression a or-else b on possibly-undefined JSON values. -/
def jsonOr (a b : Option Json) : Option Json :=
  if jsonTruthy a then a else b

/-- Escape a character for a JSON string literal (JSON.stringify). -/
def escapeJsonChar (c : Char) : List Char :=
  if c = '"' then ['\\', '"']
  else if c = '\\' then ['\\', '\\']
  else if c = '\n' then ['\\', 'n']
  else if c = '\r' then ['\\', 'r']
  else if c = '\t' then ['\\', 't']
  else [c]

mutual

/-- JSON.stringify of a JSON value. -/
def renderJson : Json → String
  | Json.null => "null"
  | Json.bool true => "true"
  | Json.bool false => "false"
  | Json.num n => toString n
  | Json.str s => String.mk ('"' :: (s.toList.map escapeJsonChar).flatten ++ ['"'])
  | Json.arr xs => "[" ++ renderItems xs ++ "]"
  | Json.obj fields => "\x7b" ++ renderFields fields ++ "\x7d"

/-- Comma-separated rendering of array elements. -/
def renderItems : List Json → String
  | [] => ""
  | [x] => renderJson x
  | x :: xs => renderJson x ++ "," ++ renderItems xs

/-- Comma-separated rendering of object members. -/
def renderFields : List (String × Json) → String
  | [] => ""
  | [(k, v)] => renderJson (Json.str k) ++ ":" ++ renderJson v
  | (k, v) :: fs => renderJson (Json.str k) ++ ":" ++ renderJson v ++ "," ++ renderFields fs

end

/-! ## oauth.js (frontend/src/auth/oauth.js, authorization-code revision) -/

namespace Oauth

/-- The import.meta.env variables read by oauth.js (absent when unset). -/
structure Env where
  authorizationUrl : Option String
  clientId : Option String
  redirectUri : Option String
  scope : Option String
  backendUrl : Option String

/-- The configuration record returned by getOAuthConfig. -/
structure OAuthConfig where
  name : String
  authorizationUrl : Option String
  clientId : String
  redirectUri : String
  scope : String
  responseType : String
  usePKCE : Bool

/-- getOAuthConfig from oauth.js. -/
def getOAuthConfig (env : Env) : OAuthConfig :=
  { name := "OAuth2 Provider"
    authorizationUrl := env.authorizationUrl
    clientId := jsOrD env.clientId "query-app"
    redirectUri := jsOrD env.redirectUri "http://localhost:5173/callback"
    scope := jsOrD env.scope "openid profile email"
    responseType := "code"
    usePKCE := true }

/-- generateCodeChallenge: SHA-256 (the crypto.subtle collaborator, passed
as the digest argument) over the UTF-8 bytes of the verifier, then
base64UrlEncode. -/
def generateCodeChallenge (digest : List Nat → List Nat) (verifier : String) : String :=
  base64UrlEncode (digest (utf8Encode verifier))

/-- The authorization request assembled by buildAuthorizationUrl: the
endpoint and the URLSearchParams entries, in insertion order. -/
structure AuthRequest where
  endpoint : String
  params : List (String × String)

/-- buildAuthorizationUrl from oauth.js. The random state, nonce and code
verifier produced by crypto.getRandomValues are inputs; the digest argument
is the SHA-256 collaborator. Returns the request and the updated session
storage. -/
def buildAuthorizationUrl (digest : List Nat → List Nat) (config : OAuthConfig)
    (state nonce verifier : String) (st : Store) : AuthRequest × Store :=
  let st1 := st.setItem "oauth_state" state
  let base := [("client_id", config.clientId),
               ("redirect_uri", config.redirectUri),
               ("response_type", config.responseType),
               ("scope", config.scope),
               ("state", state),
               ("nonce", nonce)]
  if config.usePKCE && config.responseType == "code" then
    let challenge := generateCodeChallenge digest verifier
    let st2 := st1.setItem "code_verifier" verifier
    ({ endpoint := jsStr config.authorizationUrl
       params := base ++ [("code_challenge", challenge),
                          ("code_challenge_method", "S256")] }, st2)
  else
    ({ endpoint := jsStr config.authorizationUrl, params := base }, st1)

/-- The JSON body of a token-endpoint response, with the recognized fields
(absent fields are none). -/
structure TokenResponse where
  access_token : Option String := none
  id_token : Option String := none
  token_type : Option String := none
  expires_in : Option Int := none
  refresh_token : Option String := none

/-- Outcome of the fetch to the backend intermediary: a response with
response.ok, or a non-ok response with its HTTP status and the message
field of its JSON error body (none when the body fails to parse). -/
inductive FetchOutcome where
  | ok (data : TokenResponse)
  | httpError (status : Nat) (message : Option String)

/-- The camel-cased token bundle returned by exchangeCodeForTokens and
refreshAccessToken. -/
structure TokenResult where
  accessToken : Option String
  idToken : Option String
  tokenType : Option String
  expiresIn : Option Int
  refreshToken : Option String

/-- exchangeCodeForTokens from oauth.js: on a non-ok response it throws
with the error-body message, or a fallback naming the status; on success
it removes the code verifier from session storage and returns the mapped
token bundle together with the updated storage. -/
def exchangeCodeForTokens (st : Store) (outcome : FetchOutcome) :
    Except String (Store × TokenResult) :=
  match outcome with
  | FetchOutcome.httpError status message =>
    Except.error (jsOrD message ("Token exchange failed: " ++ toString status))
  | FetchOutcome.ok data =>
    let st1 := st.removeItem "code_verifier"
    Except.ok (st1,
      { accessToken := data.access_token
        idToken := data.id_token
        tokenType := data.token_type
        expiresIn := data.expires_in
        refreshToken := data.refresh_token })

/-- refreshAccessToken from oauth.js: on a non-ok response it throws with
the error-body message, or a fallback naming the status; on success the
returned bundle keeps the old refresh token when the response carries no
new one. -/
def refreshAccessToken (refreshToken : String) (outcome : FetchOutcome) :
    Except String TokenResult :=
  match outcome with
  | FetchOutcome.httpError status message =>
    Except.error (jsOrD message ("Token refresh failed: " ++ toString status))
  | FetchOutcome.ok data =>
    Except.ok
      { accessToken := data.access_token
        idToken := data.id_token
        tokenType := data.token_type
        expiresIn := data.expires_in
        refreshToken := jsOr data.refresh_token (some refreshToken) }

/-- The record produced by parseQueryParams from the callback URL query
string (URLSearchParams.get yields null, that is none, for a missing
parameter). -/
structure QueryParams where
  code : Option String
  state : Option String
  error : Option String
  errorDescription : Option String

/-- verifyState from oauth.js: strict equality of the received state with
the stored oauth_state. -/
def verifyState (st : Store) (receivedState : Option String) : Bool :=
  st.getItem "oauth_state" == receivedState

/-- decodeJWT from oauth.js: split on dots, require exactly three
segments, fix the base64url characters of the payload segment, atob it
(forgiving base64, yielding a latin-1 string) and JSON.parse the result;
null (none) on any failure. -/
def decodeJWT (token : String) : Option Json :=
  match splitOnChar '.' token.toList with
  | [_, p1, _] =>
    match atobStr (String.mk (p1.map (fun c => if c = '-' then '+' else if c = '_' then '/' else c))) with
    | some payload => jsonParse payload
    | none => none
  | _ => none

/-- isTokenExpired from oauth.js (no grace buffer). Date.now() is the now
argument, in milliseconds. A null or empty token is expired; a token that
is not three dot-separated segments, or does not decode, or carries no
truthy exp claim, is not expired; otherwise expired means now at or past
exp times 1000. Non-numeric exp claims (which JS would coerce) are not
modelled. -/
def isTokenExpired (now : Int) : Option String → Bool
  | none => true
  | some t =>
    if t = "" then true
    else if (splitOnChar '.' t.toList).length ≠ 3 then false
    else
      match decodeJWT t with
      | none => false
      | some decoded =>
        match decoded.getField "exp" with
        | some (Json.num e) => if e = 0 then false else decide (now ≥ e * 1000)
        | _ => false

end Oauth

/-! ## AuthProvider.jsx (authorization-code revision with refresh) -/

namespace AuthProvider

open Oauth

/-- The userInfo object assembled in handleCallback from the decoded
token (each field is a claim of the decoded payload, possibly absent). -/
structure UserInfo where
  sub : Option Json
  email : Option Json
  name : Option Json
  picture : Option Json

/-- The userInfo assembly: name falls back from name to
preferred_username to email. -/
def mkUserInfo (decoded : Json) : UserInfo :=
  { sub := decoded.getField "sub"
    email := decoded.getField "email"
    name := jsonOr (decoded.getField "name")
              (jsonOr (decoded.getField "preferred_username") (decoded.getField "email"))
    picture := decoded.getField "picture" }

/-- JSON.stringify of the userInfo object: fields with an undefined value
are omitted. -/
def stringifyUser (u : UserInfo) : String :=
  renderJson (Json.obj
    (([("sub", u.sub), ("email", u.email), ("name", u.name), ("picture", u.picture)]).filterMap
      (fun p => p.2.map (fun v => (p.1, v)))))

/-- The React state of the AuthProvider component. -/
structure CompState where
  user : Option UserInfo
  accessToken : Option String
  idToken : Option String
  isAuthenticated : Bool
  isLoading : Bool
  error : Option String

/-- The component state at mount (the useState initial values). -/
def initComp : CompState :=
  { user := none, accessToken := none, idToken := none
    isAuthenticated := false, isLoading := true, error := none }

/-- Result of one handleCallback invocation: the final component state and
session storage, how many times the code-for-token exchange ran, and
whether the success path rewrote the URL back to the home path. -/
structure CallbackResult where
  comp : CompState
  store : Store
  exchangeCalls : Nat
  redirectedHome : Bool

/-- The catch-and-finally tail of handleCallback: record the error
message, clear session storage, schedule the redirect home, and drop the
loading flag. -/
def failCallback (comp : CompState) (msg : String) (n : Nat) : CallbackResult :=
  { comp := { comp with error := some msg, isLoading := false }
    store := []
    exchangeCalls := n
    redirectedHome := false }

/-- handleCallback from AuthProvider.jsx (the authorization-code revision):
validate the query parameters, exchange the code through
exchangeCodeForTokens, persist tokens and user info, and mark the session
authenticated; any thrown error is converted into an error message plus a
cleared session storage. The fetch outcome of the exchange is the outcome
argument. -/
def handleCallback (params : QueryParams) (st : Store) (comp : CompState)
    (outcome : FetchOutcome) : CallbackResult :=
  if truthy params.error then
    failCallback comp (jsOrD params.errorDescription (jsStr params.error)) 0
  else if truthy params.state && !verifyState st params.state then
    failCallback comp "Invalid state parameter - possible CSRF attack" 0
  else if truthy params.code then
    match exchangeCodeForTokens st outcome with
    | Except.error msg => failCallback comp msg 1
    | Except.ok (st1, tok) =>
      if !truthy tok.accessToken then
        failCallback comp "No access token received from token exchange" 1
      else
        let st2 := st1.setItem "access_token" (jsStr tok.accessToken)
        let st3 := if truthy tok.idToken then st2.setItem "id_token" (jsStr tok.idToken) else st2
        let st4 := if truthy tok.refreshToken then st3.setItem "refresh_token" (jsStr tok.refreshToken) else st3
        let tokenToDecode := jsOr tok.idToken tok.accessToken
        match decodeJWT (jsStr tokenToDecode) with
        | some decoded =>
          let userInfo := mkUserInfo decoded
          { comp := { comp with
              user := some userInfo
              accessToken := tok.accessToken
              idToken := tok.idToken
              isAuthenticated := true
              isLoading := false }
            store := st4.setItem "user" (stringifyUser userInfo)
            exchangeCalls := 1
            redirectedHome := true }
        | none =>
          { comp := { comp with
              accessToken := tok.accessToken
              idToken := tok.idToken
              isAuthenticated := true
              isLoading := false }
            store := st4
            exchangeCalls := 1
            redirectedHome := true }
  else
    failCallback comp "No authorization code received" 0

/-- Result of one getToken invocation: the value it returns, the final
component state and storage, and how many refresh calls it made. -/
structure GetTokenResult where
  returned : Option String
  comp : CompState
  store : Store
  refreshCalls : Nat

/-- getToken from AuthProvider.jsx (the authorization-code revision): an
unexpired access token is returned as is; an expired one is refreshed
through refreshAccessToken when a refresh token is stored, persisting the
refreshed values; a refresh failure clears storage, drops authentication
and returns null; otherwise null. The function never throws. -/
def getToken (now : Int) (comp : CompState) (st : Store)
    (outcome : FetchOutcome) : GetTokenResult :=
  if truthy comp.accessToken then
    if !isTokenExpired now comp.accessToken then
      { returned := comp.accessToken, comp := comp, store := st, refreshCalls := 0 }
    else
      let storedRefreshToken := st.getItem "refresh_token"
      if truthy storedRefreshToken then
        match refreshAccessToken (jsStr storedRefreshToken) outcome with
        | Except.ok tok =>
          let st1 := st.setItem "access_token" (jsStr tok.accessToken)
          let st2 := if truthy tok.idToken then st1.setItem "id_token" (jsStr tok.idToken) else st1
          let st3 := if truthy tok.refreshToken then st2.setItem "refresh_token" (jsStr tok.refreshToken) else st2
          { returned := tok.accessToken
            comp := { comp with accessToken := tok.accessToken, idToken := tok.idToken }
            store := st3
            refreshCalls := 1 }
        | Except.error _ =>
          { returned := none
            comp := { comp with
              accessToken := none
              idToken := none
              isAuthenticated := false
              error := some "Session expired. Please log in again." }
            store := []
            refreshCalls := 1 }
      else
        { returned := none, comp := comp, store := st, refreshCalls := 0 }
  else
    { returned := none, comp := comp, store := st, refreshCalls := 0 }

end AuthProvider

/-! ## tokenUtils revision (jwt-decode based, five-second buffer) -/

namespace TokenUtils

/-- isTokenExpired from the tokenUtils revision: the jwt-decode library is
modelled by the same JWT decoding as decodeJWT; a five-second buffer is
subtracted from the expiry instant, and the comparison is at-or-past. -/
def isTokenExpired (now : Int) : Option String → Bool
  | none => true
  | some t =>
    if t = "" then true
    else
      match Oauth.decodeJWT t with
      | none => false
      | some decoded =>
        match decoded.getField "exp" with
        | some (Json.num e) =>
          if e = 0 then false else decide (now ≥ e * 1000 - 5000)
        | _ => false

end TokenUtils

/-! ## Development-guide revision (part_001): guarded callback entry -/

namespace Guide

/-- The useEffect of the development-guide AuthProvider: on the callback
path it starts handleCallback only when no processing_callback flag is in
session storage, setting the flag first; a second entry that sees the flag
is a no-op. Returns whether handleCallback was started and the storage
after the guard. -/
def callbackEntry (pathname : String) (st : Store) : Bool × Store :=
  if pathname = "/callback" then
    if !truthy (st.getItem "processing_callback") then
      (true, st.setItem "processing_callback" "true")
    else
      (false, st)
  else
    (false, st)

end Guide

/-! ## OAuthService revision (part_005): consolidated service class -/

namespace OAuthService

open Oauth

/-- extractUserInfo from the tokenUtils revision: decode the preferred
credential and build the claim bag, spreading all decoded claims over the
four named fields (later properties override earlier ones, JS object
spread semantics). None when nothing decodes. -/
def extractUserInfo (idToken accessToken : Option String) : Option (List (String × Json)) :=
  match jsOr idToken accessToken with
  | none => none
  | some t =>
    match decodeJWT t with
    | none => none
    | some decoded =>
      let base := ([("sub", decoded.getField "sub"),
                    ("email", decoded.getField "email"),
                    ("name", jsonOr (decoded.getField "name")
                      (jsonOr (decoded.getField "preferred_username") (decoded.getField "email"))),
                    ("picture", decoded.getField "picture")]).filterMap
                  (fun p => p.2.map (fun v => (p.1, v)))
      match decoded with
      | Json.obj fields =>
        some (fields.foldl
          (fun acc kv =>
            if acc.any (fun p => p.1 == kv.1) then
              acc.map (fun p => if p.1 == kv.1 then kv else p)
            else acc ++ [kv])
          base)
      | _ => some base

/-- OAuthStorage.saveTokens from part_005. -/
def saveTokens (st : Store) (tok : TokenResult) : Store :=
  let st1 := st.setItem "access_token" (jsStr tok.accessToken)
  let st2 := if truthy tok.idToken then st1.setItem "id_token" (jsStr tok.idToken) else st1
  if truthy tok.refreshToken then st2.setItem "refresh_token" (jsStr tok.refreshToken) else st2

/-- OAuthService.exchangeCodeForTokens from part_005: call the api client
(its outcome is the apiOutcome argument), save tokens, save the extracted
user info, then remove both the code verifier and the stored state
(cleanup of the PKCE state). -/
def exchangeCodeForTokens (st : Store) (apiOutcome : Except String TokenResult) :
    Except String (Store × TokenResult × Option (List (String × Json))) :=
  match apiOutcome with
  | Except.error msg => Except.error msg
  | Except.ok tokens =>
    let st1 := saveTokens st tokens
    let userInfo := extractUserInfo tokens.idToken tokens.accessToken
    let st2 :=
      match userInfo with
      | some u => st1.setItem "user" (renderJson (Json.obj u))
      | none => st1
    let st3 := (st2.removeItem "code_verifier").removeItem "oauth_state"
    Except.ok (st3, tokens, userInfo)

end OAuthService

/-! ## Backend query endpoint (backend/src/server.js) -/

namespace Server

/-- The query field of the request body: absent, a string, or a non-string
JSON value. -/
inductive QueryField where
  | missing
  | strVal (s : String)
  | nonStr

/-- Outcome of the request-validation part of the /api/query handler:
either an early JSON response with a status and message, or the handoff of
the bearer token and query to the Trino client. -/
inductive HandlerOutcome where
  | respond (status : Nat) (message : String)
  | trinoQuery (token : String) (query : String)

/-- Whether HandlerOutcome.respond holds. -/
def HandlerOutcome.isRespond : HandlerOutcome → Bool
  | HandlerOutcome.respond _ _ => true
  | HandlerOutcome.trinoQuery _ _ => false

/-- The validation chain of the /api/query handler in server.js: require a
Bearer authorization header (401), require a non-empty string query (400),
reject queries longer than 10000 characters (400), and only then build the
Trino client and run the query. -/
def queryHandler (authHeader : Option String) (q : QueryField) : HandlerOutcome :=
  let headerOk :=
    match authHeader with
    | none => false
    | some h => charsStartWith "Bearer ".toList h.toList
  if !headerOk then
    HandlerOutcome.respond 401 "Missing or invalid Authorization header"
  else
    let token := String.mk ((jsStr authHeader).toList.drop 7)
    match q with
    | QueryField.missing => HandlerOutcome.respond 400 "Query string is required"
    | QueryField.nonStr => HandlerOutcome.respond 400 "Query string is required"
    | QueryField.strVal s =>
      if s = "" then HandlerOutcome.respond 400 "Query string is required"
      else if s.length > 10000 then
        HandlerOutcome.respond 400 "Query exceeds maximum length of 10000 characters"
      else
        HandlerOutcome.trinoQuery token s

end Server

/-! ## Concrete fixtures used in evaluations and witnesses -/

/-- A configuration read from an empty environment: PKCE on, code flow. -/
def cfgW : Oauth.OAuthConfig :=
  Oauth.getOAuthConfig ⟨none, none, none, none, none⟩

/-- A successful token-endpoint response body. -/
def okData : Oauth.TokenResponse :=
  { access_token := some "tok", refresh_token := some "rt" }

/-- A refresh response carrying a rotated refresh token. -/
def rotTokData : Oauth.TokenResponse :=
  { access_token := some "newtok", refresh_token := some "rt2" }

/-- A refresh response carrying no refresh token. -/
def keepTokData : Oauth.TokenResponse :=
  { access_token := some "newtok" }

/-- Session storage as left by a login start: state and verifier stored. -/
def st0 : Store := [("oauth_state", "xyz"), ("code_verifier", "ver")]

/-- Callback query parameters with a code and the matching state. -/
def params0 : Oauth.QueryParams :=
  { code := some "abc", state := some "xyz", error := none, errorDescription := none }

/-- Callback query parameters with a code and no state parameter. -/
def paramsNoState : Oauth.QueryParams :=
  { code := some "abc", state := none, error := none, errorDescription := none }

/-- Callback query parameters carrying a provider error. -/
def paramsErr : Oauth.QueryParams :=
  { code := none, state := none, error := some "access_denied", errorDescription := none }

/-- A structured token whose payload is the object with exp 1700000000
(the middle segment is the base64url of that JSON object). -/
def tokExp : String := "hdr.eyJleHAiOjE3MDAwMDAwMDB9.sig"

/-- The decoded payload of tokExp. -/
def dExp : Json := Json.obj [("exp", Json.num 1700000000)]

/-- A component state holding tokExp as the session's access token. -/
def compW : AuthProvider.CompState :=
  { AuthProvider.initComp with accessToken := some tokExp, isAuthenticated := true }

/-- Session storage holding only a refresh token. -/
def stRefresh : Store := [("refresh_token", "rt")]

/-- The token bundle returned by the api client in the OAuthService
revision fixture. -/
def tokResW : Oauth.TokenResult :=
  { accessToken := some "tok", idToken := none, tokenType := none
    expiresIn := none, refreshToken := none }

/-- A query string of 10001 characters. -/
def longQuery : String := String.mk (List.replicate 10001 'x')

/-- Whether the fetch outcome of a code-for-token exchange makes the
exchange fail: a non-ok response, or an ok response whose body carries no
truthy access token. -/
def exchangeFails : Oauth.FetchOutcome → Bool
  | Oauth.FetchOutcome.httpError _ _ => true
  | Oauth.FetchOutcome.ok data => !truthy data.access_token

/-- The session storage produced by the persistence steps of the
successful-refresh branch of getToken, spelled out for reasoning: the
refreshed access token is written, the id and refresh tokens only when
truthy, the refresh token being the response one or-else the stored one. -/
def refreshedStore (st : Store) (data : Oauth.TokenResponse) : Store :=
  let newRt := jsOr data.refresh_token (some (jsStr (st.getItem "refresh_token")))
  let st1 := st.setItem "access_token" (jsStr data.access_token)
  let st2 := if truthy data.id_token then st1.setItem "id_token" (jsStr data.id_token) else st1
  if truthy newRt then st2.setItem "refresh_token" (jsStr newRt) else st2

/-- The session storage produced by the success path of handleCallback,
spelled out for reasoning: the verifier is removed by the exchange, the
tokens are written, and the user entry is written when the token decodes.
The stored CSRF state is not touched. -/
def callbackStore (st : Store) (data : Oauth.TokenResponse) : Store :=
  let st1 := (st.removeItem "code_verifier").setItem "access_token" (jsStr data.access_token)
  let st2 := if truthy data.id_token then st1.setItem "id_token" (jsStr data.id_token) else st1
  let st3 := if truthy data.refresh_token then
      st2.setItem "refresh_token" (jsStr data.refresh_token) else st2
  match Oauth.decodeJWT (jsStr (jsOr data.id_token data.access_token)) with
  | some decoded =>
    st3.setItem "user" (AuthProvider.stringifyUser (AuthProvider.mkUserInfo decoded))
  | none => st3

/-- The storage component of an OAuthService exchange result (empty for
the error case, which performs no storage writes). -/
def serviceStoreOf (r : Except String (Store × Oauth.TokenResult × Option (List (String × Json)))) :
    Store :=
  match r with
  | Except.ok (st, _, _) => st
  | Except.error _ => []

/-! ## Helper lemmas on the storage model -/

/-- Removing a key makes it absent. -/
theorem getItem_removeItem_self (st : Store) (k : String) :
    (st.removeItem k).getItem k = none := by
  induction st with
  | nil => rfl
  | cons p st ih =>
    obtain ⟨k1, v⟩ := p
    by_cases h : k1 = k
    · simpa [Store.removeItem, h] using ih
    · simpa [Store.removeItem, Store.getItem, h] using ih

/-- Removing one key leaves the others unchanged. -/
theorem getItem_removeItem_of_ne (st : Store) {k k' : String} (h : k' ≠ k) :
    (st.removeItem k).getItem k' = st.getItem k' := by
  induction st with
  | nil => rfl
  | cons p st ih =>
    obtain ⟨k1, v⟩ := p
    by_cases hp : k1 = k
    · subst hp
      have hq : ¬ k1 = k' := fun e => h e.symm
      simpa [Store.removeItem, Store.getItem, hq] using ih
    · by_cases hq : k1 = k'
      · subst hq
        simp [Store.removeItem, Store.getItem, hp]
      · simpa [Store.removeItem, Store.getItem, hp, hq] using ih

/-- Reading the key just written yields the written value. -/
theorem getItem_setItem_self (st : Store) (k v : String) :
    (st.setItem k v).getItem k = some v := by
  simp [Store.setItem, Store.getItem]

/-- Writing one key leaves the others unchanged. -/
theorem getItem_setItem_of_ne (st : Store) {k k' : String} (h : k' ≠ k) (v : String) :
    (st.setItem k v).getItem k' = st.getItem k' := by
  have hr := getItem_removeItem_of_ne st h
  have hk : ¬ k = k' := fun e => h e.symm
  simp [Store.setItem, Store.getItem, hk]
  exact hr

/-! ## Helper lemmas on strings and JS values -/

/-- Appending to a non-empty string stays non-empty. -/
theorem append_ne_empty_left {s : String} (t : String) (hs : s.data ≠ []) :
    s ++ t ≠ "" := by
  intro h
  apply hs
  have hd : (s ++ t).data = [] := by rw [h]
  rw [String.data_append] at hd
  exact (List.append_eq_nil.mp hd).1

/-- The JS or-else with a non-empty plain default is non-empty. -/
theorem jsOrD_ne_empty (a : Option String) {b : String} (hb : b ≠ "") :
    jsOrD a b ≠ "" := by
  unfold jsOrD
  cases a with
  | none => exact hb
  | some s =>
    by_cases h : s = ""
    · simp [h, hb]
    · simp [h]

/-- A truthy optional string is a some of a non-empty string. -/
theorem truthy_iff (o : Option String) :
    truthy o = true ↔ ∃ s, o = some s ∧ s ≠ "" := by
  cases o with
  | none => simp [truthy]
  | some s => simp [truthy, bne_iff_ne]

/-! ## base64UrlEncode implements unpadded base64url -/

/-- The character substitution turns the standard table into the URL
table, position by position (out-of-range positions both default). -/
theorem b64UrlSubst_getD (i : Nat) :
    b64UrlSubst (b64StdChars.getD i 'A') = b64UrlChars.getD i 'A' := by
  by_cases h : i < 64
  · have H : ∀ j, j < 64 → b64UrlSubst (b64StdChars.getD j 'A') = b64UrlChars.getD j 'A' := by
      decide
    exact H i h
  · have h1 : b64StdChars.getD i 'A' = 'A' := by
      apply List.getD_eq_default
      have : b64StdChars.length = 64 := by decide
      omega
    have h2 : b64UrlChars.getD i 'A' = 'A' := by
      apply List.getD_eq_default
      have : b64UrlChars.length = 64 := by decide
      omega
    rw [h1, h2]
    rfl

/-- No character of the URL table is the padding sign. -/
theorem b64UrlChar_ne_pad (i : Nat) : b64UrlChars.getD i 'A' ≠ '=' := by
  by_cases h : i < 64
  · have H : ∀ j, j < 64 → b64UrlChars.getD j 'A' ≠ '=' := by decide
    exact H i h
  · have h2 : b64UrlChars.getD i 'A' = 'A' := by
      apply List.getD_eq_default
      have : b64UrlChars.length = 64 := by decide
      omega
    rw [h2]
    decide

/-- The substituted standard table character is the URL table character. -/
theorem subst_std_eq (i : Nat) : b64UrlSubst (b64StdChar i) = b64UrlChar i :=
  b64UrlSubst_getD i

/-- The substituted standard table character is never the padding sign. -/
theorem subst_std_ne_pad (i : Nat) : b64UrlSubst (b64StdChar i) ≠ '=' := by
  rw [subst_std_eq]
  exact b64UrlChar_ne_pad i

/-- One step of the substitute-then-strip pipeline on a non-padding head. -/
theorem urlize_cons_ne (c : Char) (cs : List Char) (h : b64UrlSubst c ≠ '=') :
    (List.map b64UrlSubst (c :: cs)).filter (fun x => x != '=') =
      b64UrlSubst c :: (List.map b64UrlSubst cs).filter (fun x => x != '=') := by
  simp [List.filter_cons, bne_iff_ne, h]

/-- One step of the substitute-then-strip pipeline on a padding head. -/
theorem urlize_cons_pad (cs : List Char) :
    (List.map b64UrlSubst ('=' :: cs)).filter (fun x => x != '=') =
      (List.map b64UrlSubst cs).filter (fun x => x != '=') := by
  have h : b64UrlSubst '=' = '=' := rfl
  simp [List.filter_cons, h]

/-- base64UrlEncode (btoa followed by character replacement and padding
removal) computes exactly the direct unpadded base64url encoding. -/
theorem base64UrlEncode_eq_direct (l : List Nat) :
    base64UrlEncode l = base64UrlDirect l := by
  induction l using btoaChars.induct with
  | case1 => rfl
  | case2 b1 =>
    show String.mk ((List.map b64UrlSubst (btoaChars [b1])).filter (fun x => x != '=')) = _
    rw [show btoaChars [b1] =
        [b64StdChar (b1 / 4), b64StdChar (b1 % 4 * 16), '=', '='] from rfl]
    rw [urlize_cons_ne _ _ (subst_std_ne_pad _), urlize_cons_ne _ _ (subst_std_ne_pad _),
      urlize_cons_pad, urlize_cons_pad, subst_std_eq, subst_std_eq]
    rfl
  | case3 b1 b2 =>
    show String.mk ((List.map b64UrlSubst (btoaChars [b1, b2])).filter (fun x => x != '=')) = _
    rw [show btoaChars [b1, b2] =
        [b64StdChar (b1 / 4), b64StdChar (b1 % 4 * 16 + b2 / 16),
         b64StdChar (b2 % 16 * 4), '='] from rfl]
    rw [urlize_cons_ne _ _ (subst_std_ne_pad _), urlize_cons_ne _ _ (subst_std_ne_pad _),
      urlize_cons_ne _ _ (subst_std_ne_pad _), urlize_cons_pad,
      subst_std_eq, subst_std_eq, subst_std_eq]
    rfl
  | case4 b1 b2 b3 rest ih =>
    show String.mk ((List.map b64UrlSubst (btoaChars (b1 :: b2 :: b3 :: rest))).filter
      (fun x => x != '=')) = _
    rw [show btoaChars (b1 :: b2 :: b3 :: rest) =
        b64StdChar (b1 / 4) :: b64StdChar (b1 % 4 * 16 + b2 / 16) ::
        b64StdChar (b2 % 16 * 4 + b3 / 64) :: b64StdChar (b3 % 64) ::
        btoaChars rest from rfl]
    rw [urlize_cons_ne _ _ (subst_std_ne_pad _), urlize_cons_ne _ _ (subst_std_ne_pad _),
      urlize_cons_ne _ _ (subst_std_ne_pad _), urlize_cons_ne _ _ (subst_std_ne_pad _),
      subst_std_eq, subst_std_eq, subst_std_eq, subst_std_eq]
    show _ = base64UrlDirect (b1 :: b2 :: b3 :: rest)
    rw [show base64UrlDirect (b1 :: b2 :: b3 :: rest) =
        String.mk [b64UrlChar (b1 / 4), b64UrlChar (b1 % 4 * 16 + b2 / 16),
          b64UrlChar (b2 % 16 * 4 + b3 / 64), b64UrlChar (b3 % 64)] ++
        base64UrlDirect rest from rfl]
    rw [← ih]
    rfl

/-! ## C1: PKCE challenge in the authorization URL -/

/-- C1: for every configuration with PKCE enabled and response type code,
the authorization request built by buildAuthorizationUrl carries a
code_challenge parameter equal to the unpadded base64url encoding of the
SHA-256 hash (the digest collaborator) of the UTF-8 bytes of the code
verifier stored in session storage for this login attempt, together with
code_challenge_method S256. -/
theorem buildAuthorizationUrl_pkce_challenge
    (digest : List Nat → List Nat) (config : Oauth.OAuthConfig)
    (state nonce verifier : String) (st : Store)
    (hp : config.usePKCE = true) (hr : config.responseType = "code") :
    ("code_challenge", base64UrlDirect (digest (utf8Encode verifier)))
        ∈ (Oauth.buildAuthorizationUrl digest config state nonce verifier st).1.params
    ∧ ("code_challenge_method", "S256")
        ∈ (Oauth.buildAuthorizationUrl digest config state nonce verifier st).1.params
    ∧ (Oauth.buildAuthorizationUrl digest config state nonce verifier st).2.getItem
        "code_verifier" = some verifier := by
  unfold Oauth.buildAuthorizationUrl
  rw [hp, hr]
  simp [Oauth.generateCodeChallenge, base64UrlEncode_eq_direct, getItem_setItem_self]

/-- C1 witness: a concrete digest, configuration and verifier. -/
theorem buildAuthorizationUrl_pkce_challenge_witness :
    ("code_challenge", base64UrlDirect [1, 2, 3])
        ∈ (Oauth.buildAuthorizationUrl (fun _ => [1, 2, 3]) cfgW "stt" "non" "ver" []).1.params
    ∧ ("code_challenge_method", "S256")
        ∈ (Oauth.buildAuthorizationUrl (fun _ => [1, 2, 3]) cfgW "stt" "non" "ver" []).1.params
    ∧ (Oauth.buildAuthorizationUrl (fun _ => [1, 2, 3]) cfgW "stt" "non" "ver" []).2.getItem
        "code_verifier" = some "ver" :=
  buildAuthorizationUrl_pkce_challenge (fun _ => [1, 2, 3]) cfgW "stt" "non" "ver" [] rfl rfl

/-! ## C2: duplicate callback delivery -/

/-- C2: evaluation of the code at the failing input: handleCallback invoked
twice with the same callback URL (code abc with matching state xyz) runs
the code-for-token exchange in both invocations, two exchanges in total;
the second invocation is not a no-op. The processing_callback guard exists
only in the development-guide revision of the component (see
callbackEntry_second_is_noop below), not in handleCallback itself. -/
theorem handleCallback_double_invocation_two_exchanges :
    (AuthProvider.handleCallback params0 st0 AuthProvider.initComp
      (Oauth.FetchOutcome.ok okData)).exchangeCalls
    + (AuthProvider.handleCallback params0
        (AuthProvider.handleCallback params0 st0 AuthProvider.initComp
          (Oauth.FetchOutcome.ok okData)).store
        (AuthProvider.handleCallback params0 st0 AuthProvider.initComp
          (Oauth.FetchOutcome.ok okData)).comp
        (Oauth.FetchOutcome.ok okData)).exchangeCalls = 2 := by
  set_option maxRecDepth 4000 in decide

/-- In the development-guide revision the processing_callback flag guards
the callback entry: after any entry on the callback path, a second entry
that observes the resulting storage does not start handleCallback again. -/
theorem callbackEntry_second_is_noop (st : Store) :
    (Guide.callbackEntry "/callback" (Guide.callbackEntry "/callback" st).2).1 = false := by
  by_cases h : truthy (st.getItem "processing_callback") = true
  · simp [Guide.callbackEntry, h]
  · have h' : truthy (st.getItem "processing_callback") = false := by
      simpa using h
    rw [show Guide.callbackEntry "/callback" st
        = (true, st.setItem "processing_callback" "true") from by
      simp [Guide.callbackEntry, h']]
    simp [Guide.callbackEntry, getItem_setItem_self, truthy]

/-! ## C3: every failure path ends unauthenticated and clean -/

/-- The provider-error branch of handleCallback. -/
theorem handleCallback_error_branch (params : Oauth.QueryParams) (st : Store)
    (comp : AuthProvider.CompState) (outcome : Oauth.FetchOutcome)
    (he : truthy params.error = true) :
    AuthProvider.handleCallback params st comp outcome =
      AuthProvider.failCallback comp (jsOrD params.errorDescription (jsStr params.error)) 0 := by
  unfold AuthProvider.handleCallback
  rw [he]
  simp

/-- The state-mismatch branch of handleCallback. -/
theorem handleCallback_state_branch (params : Oauth.QueryParams) (st : Store)
    (comp : AuthProvider.CompState) (outcome : Oauth.FetchOutcome)
    (he : truthy params.error = false)
    (hs : (truthy params.state && !Oauth.verifyState st params.state) = true) :
    AuthProvider.handleCallback params st comp outcome =
      AuthProvider.failCallback comp "Invalid state parameter - possible CSRF attack" 0 := by
  unfold AuthProvider.handleCallback
  rw [he, hs]
  simp

/-- The exchange-failure branch of handleCallback (non-ok response). -/
theorem handleCallback_httpError_branch (params : Oauth.QueryParams) (st : Store)
    (comp : AuthProvider.CompState) (status : Nat) (m : Option String)
    (he : truthy params.error = false)
    (hs : (truthy params.state && !Oauth.verifyState st params.state) = false)
    (hc : truthy params.code = true) :
    AuthProvider.handleCallback params st comp (Oauth.FetchOutcome.httpError status m) =
      AuthProvider.failCallback comp
        (jsOrD m ("Token exchange failed: " ++ toString status)) 1 := by
  unfold AuthProvider.handleCallback
  rw [he, hs, hc]
  simp [Oauth.exchangeCodeForTokens]

/-- The missing-access-token branch of handleCallback (ok response whose
body carries no truthy access token). -/
theorem handleCallback_noToken_branch (params : Oauth.QueryParams) (st : Store)
    (comp : AuthProvider.CompState) (data : Oauth.TokenResponse)
    (he : truthy params.error = false)
    (hs : (truthy params.state && !Oauth.verifyState st params.state) = false)
    (hc : truthy params.code = true)
    (hta : truthy data.access_token = false) :
    AuthProvider.handleCallback params st comp (Oauth.FetchOutcome.ok data) =
      AuthProvider.failCallback comp "No access token received from token exchange" 1 := by
  unfold AuthProvider.handleCallback
  rw [he, hs, hc]
  simp [Oauth.exchangeCodeForTokens, hta]

/-- The malformed-callback branch of handleCallback (neither code nor
error present). -/
theorem handleCallback_noCode_branch (params : Oauth.QueryParams) (st : Store)
    (comp : AuthProvider.CompState) (outcome : Oauth.FetchOutcome)
    (he : truthy params.error = false)
    (hs : (truthy params.state && !Oauth.verifyState st params.state) = false)
    (hc : truthy params.code = false) :
    AuthProvider.handleCallback params st comp outcome =
      AuthProvider.failCallback comp "No authorization code received" 0 := by
  unfold AuthProvider.handleCallback
  rw [he, hs, hc]
  simp

/-- Truthy optional strings stringify to their non-empty content. -/
theorem jsStr_ne_empty_of_truthy {o : Option String} (h : truthy o = true) :
    jsStr o ≠ "" := by
  rcases (truthy_iff o).mp h with ⟨s, rfl, hs⟩
  simpa [jsStr] using hs

/-- The fallback message of a failed exchange is never empty. -/
theorem exchange_fallback_ne_empty (status : Nat) :
    ("Token exchange failed: " ++ toString status : String) ≠ "" := by
  apply append_ne_empty_left
  decide

/-- C3: for every failure path of handleCallback run from the mount state
(provider error present, state mismatch, failing exchange, or neither code
nor error), the resulting component state is unauthenticated with a
non-empty error message and session storage is cleared; no partially
authenticated state survives the call. -/
theorem handleCallback_failure_clean (params : Oauth.QueryParams) (st : Store)
    (outcome : Oauth.FetchOutcome)
    (hfail : truthy params.error = true
      ∨ (truthy params.state && !Oauth.verifyState st params.state) = true
      ∨ (truthy params.code = true ∧ exchangeFails outcome = true)
      ∨ (truthy params.code = false ∧ truthy params.error = false)) :
    (AuthProvider.handleCallback params st AuthProvider.initComp outcome).comp.isAuthenticated
        = false
    ∧ (AuthProvider.handleCallback params st AuthProvider.initComp outcome).store = []
    ∧ ∃ m, (AuthProvider.handleCallback params st AuthProvider.initComp outcome).comp.error
        = some m ∧ m ≠ "" := by
  by_cases he : truthy params.error = true
  · rw [handleCallback_error_branch params st AuthProvider.initComp outcome he]
    exact ⟨rfl, rfl, _, rfl, jsOrD_ne_empty _ (jsStr_ne_empty_of_truthy he)⟩
  · have he' : truthy params.error = false := by simpa using he
    by_cases hs : (truthy params.state && !Oauth.verifyState st params.state) = true
    · rw [handleCallback_state_branch params st AuthProvider.initComp outcome he' hs]
      exact ⟨rfl, rfl, _, rfl, by decide⟩
    · have hs' : (truthy params.state && !Oauth.verifyState st params.state) = false := by
        simpa using hs
      rcases hfail with h1 | h2 | ⟨hc, hx⟩ | ⟨hc, _⟩
      · exact absurd h1 he
      · exact absurd h2 hs
      · cases outcome with
        | httpError status m =>
          rw [handleCallback_httpError_branch params st AuthProvider.initComp status m he' hs' hc]
          exact ⟨rfl, rfl, _, rfl, jsOrD_ne_empty _ (exchange_fallback_ne_empty status)⟩
        | ok data =>
          have hta : truthy data.access_token = false := by
            simpa [exchangeFails] using hx
          rw [handleCallback_noToken_branch params st AuthProvider.initComp data he' hs' hc hta]
          exact ⟨rfl, rfl, _, rfl, by decide⟩
      · rw [handleCallback_noCode_branch params st AuthProvider.initComp outcome he' hs' hc]
        exact ⟨rfl, rfl, _, rfl, by decide⟩

/-- C3 witness: a token-endpoint 400 with an invalid_grant body ends
unauthenticated with empty storage and an error message. -/
theorem handleCallback_failure_clean_witness :
    (AuthProvider.handleCallback params0 st0 AuthProvider.initComp
      (Oauth.FetchOutcome.httpError 400 (some "invalid_grant"))).comp.isAuthenticated = false
    ∧ (AuthProvider.handleCallback params0 st0 AuthProvider.initComp
        (Oauth.FetchOutcome.httpError 400 (some "invalid_grant"))).store = []
    ∧ ∃ m, (AuthProvider.handleCallback params0 st0 AuthProvider.initComp
        (Oauth.FetchOutcome.httpError 400 (some "invalid_grant"))).comp.error
        = some m ∧ m ≠ "" :=
  handleCallback_failure_clean params0 st0
    (Oauth.FetchOutcome.httpError 400 (some "invalid_grant"))
    (Or.inr (Or.inr (Or.inl ⟨by decide, by decide⟩)))

/-! ## C4: opaque and claimless tokens are not expired -/

/-- C4 counterexample: the empty string does not consist of three
dot-separated segments, yet isTokenExpired reports it expired (the null
and empty token guard returns true), refuting the universally quantified
claim at this input. -/
theorem isTokenExpired_empty_counterexample :
    (splitOnChar '.' "".toList).length ≠ 3
    ∧ Oauth.isTokenExpired 0 (some "") = true := by
  decide

/-- C4 (amended): for every non-empty string that is not three
dot-separated segments (the opaque token case), or that fails to decode,
or that decodes without an exp claim, isTokenExpired returns false; only
the null or empty token reads as expired. -/
theorem isTokenExpired_opaque_false (now : Int) (s : String) (hne : s ≠ "")
    (h : (splitOnChar '.' s.toList).length ≠ 3
      ∨ Oauth.decodeJWT s = none
      ∨ (Oauth.decodeJWT s).bind (fun d => d.getField "exp") = none) :
    Oauth.isTokenExpired now (some s) = false := by
  rw [show Oauth.isTokenExpired now (some s)
      = (if s = "" then true
         else if (splitOnChar '.' s.toList).length ≠ 3 then false
         else
           match Oauth.decodeJWT s with
           | none => false
           | some decoded =>
             match decoded.getField "exp" with
             | some (Json.num e) => if e = 0 then false else decide (now ≥ e * 1000)
             | _ => false) from rfl]
  rw [if_neg hne]
  by_cases hl : (splitOnChar '.' s.toList).length ≠ 3
  · rw [if_pos hl]
  · rw [if_neg hl]
    rcases h with h1 | h2 | h3
    · exact absurd h1 hl
    · rw [h2]
    · cases hd : Oauth.decodeJWT s with
      | none => rfl
      | some d =>
        rw [hd] at h3
        have h4 : d.getField "exp" = none := h3
        show (match d.getField "exp" with
          | some (Json.num e) => if e = 0 then false else decide (now ≥ e * 1000)
          | _ => false) = false
        rw [h4]

/-- C4 witness: the opaque token of the specification and a structured
token whose payload object carries no exp claim. -/
theorem isTokenExpired_opaque_false_witness :
    Oauth.isTokenExpired 0 (some "ya29.a0Ae9abc123") = false
    ∧ Oauth.isTokenExpired 0 (some "h.e30.s") = false :=
  ⟨isTokenExpired_opaque_false 0 "ya29.a0Ae9abc123" (by decide) (Or.inl (by decide)),
   isTokenExpired_opaque_false 0 "h.e30.s" (by decide) (Or.inr (Or.inr rfl))⟩

/-! ## C5: expiry formula and the buffer boundary -/

/-- A token that decodes has exactly three dot-separated segments. -/
theorem decodeJWT_three_parts {t : String} {d : Json}
    (hd : Oauth.decodeJWT t = some d) :
    (splitOnChar '.' t.toList).length = 3 := by
  unfold Oauth.decodeJWT at hd
  rcases hp : splitOnChar '.' t.toList with _ | ⟨a, _ | ⟨b, _ | ⟨c, _ | ⟨e, rest⟩⟩⟩⟩ <;>
    rw [hp] at hd
  · exact Option.noConfusion hd
  · exact Option.noConfusion hd
  · exact Option.noConfusion hd
  · rfl
  · exact Option.noConfusion hd

set_option maxRecDepth 4000 in
/-- C5 counterexample: tokExp decodes with exp claim 1700000000, yet at
the boundary instant exp times 1000 minus the five-second buffer the
tokenUtils revision already reports it expired (its comparison is
at-or-past), refuting the claim that this instant reads as not yet
expired; at the same instant the oauth.js revision (which has no buffer
at all) still reports it unexpired. -/
theorem isTokenExpired_boundary_counterexample :
    Oauth.decodeJWT tokExp = some dExp
    ∧ TokenUtils.isTokenExpired (1700000000 * 1000 - 5000) (some tokExp) = true
    ∧ Oauth.isTokenExpired (1700000000 * 1000 - 5000) (some tokExp) = false := by
  refine ⟨rfl, by decide, by decide⟩

/-- C5 (amended): for every structured token that decodes with a nonzero
integer exp claim, the oauth.js revision reports it expired exactly when
now is at or past exp times 1000 (its buffer is zero), and the tokenUtils
revision exactly when now is at or past exp times 1000 minus its
five-second buffer; hence the boundary instant exp times 1000 minus the
buffer already reads as expired there, and exp itself reads as expired in
both revisions. -/
theorem isTokenExpired_exp_formula (now e : Int) (t : String) (d : Json)
    (hd : Oauth.decodeJWT t = some d)
    (he : d.getField "exp" = some (Json.num e)) (hz : e ≠ 0) :
    Oauth.isTokenExpired now (some t) = decide (now ≥ e * 1000)
    ∧ TokenUtils.isTokenExpired now (some t) = decide (now ≥ e * 1000 - 5000) := by
  have hts : t ≠ "" := by
    intro h
    rw [h] at hd
    exact Option.noConfusion hd
  have hl3 : ¬ (splitOnChar '.' t.toList).length ≠ 3 := by
    intro hh
    exact hh (decodeJWT_three_parts hd)
  constructor
  · rw [show Oauth.isTokenExpired now (some t)
        = (if t = "" then true
           else if (splitOnChar '.' t.toList).length ≠ 3 then false
           else
             match Oauth.decodeJWT t with
             | none => false
             | some decoded =>
               match decoded.getField "exp" with
               | some (Json.num e) => if e = 0 then false else decide (now ≥ e * 1000)
               | _ => false) from rfl]
    rw [if_neg hts, if_neg hl3, hd]
    show (match d.getField "exp" with
      | some (Json.num e) => if e = 0 then false else decide (now ≥ e * 1000)
      | _ => false) = decide (now ≥ e * 1000)
    rw [he]
    show (if e = 0 then false else decide (now ≥ e * 1000)) = decide (now ≥ e * 1000)
    rw [if_neg hz]
  · rw [show TokenUtils.isTokenExpired now (some t)
        = (if t = "" then true
           else
             match Oauth.decodeJWT t with
             | none => false
             | some decoded =>
               match decoded.getField "exp" with
               | some (Json.num e) => if e = 0 then false else decide (now ≥ e * 1000 - 5000)
               | _ => false) from rfl]
    rw [if_neg hts, hd]
    show (match d.getField "exp" with
      | some (Json.num e) => if e = 0 then false else decide (now ≥ e * 1000 - 5000)
      | _ => false) = decide (now ≥ e * 1000 - 5000)
    rw [he]
    show (if e = 0 then false else decide (now ≥ e * 1000 - 5000)) = decide (now ≥ e * 1000 - 5000)
    rw [if_neg hz]

set_option maxRecDepth 4000 in
/-- C5 witness: the concrete token tokExp at a concrete instant. -/
theorem isTokenExpired_exp_formula_witness :
    Oauth.isTokenExpired 1700000000000 (some tokExp)
        = decide ((1700000000000 : Int) ≥ 1700000000 * 1000)
    ∧ TokenUtils.isTokenExpired 1700000000000 (some tokExp)
        = decide ((1700000000000 : Int) ≥ 1700000000 * 1000 - 5000) :=
  isTokenExpired_exp_formula 1700000000000 1700000000 tokExp dExp rfl rfl (by decide)

/-! ## C6 and C7: getToken and refresh persistence -/

/-- The fresh-token branch of getToken. -/
theorem getToken_fresh_eq (now : Int) (comp : AuthProvider.CompState) (st : Store)
    (outcome : Oauth.FetchOutcome)
    (hat : truthy comp.accessToken = true)
    (hexp : Oauth.isTokenExpired now comp.accessToken = false) :
    AuthProvider.getToken now comp st outcome =
      { returned := comp.accessToken, comp := comp, store := st, refreshCalls := 0 } := by
  unfold AuthProvider.getToken
  rw [hat, hexp]
  simp

/-- The successful-refresh branch of getToken. -/
theorem getToken_refresh_ok_eq (now : Int) (comp : AuthProvider.CompState) (st : Store)
    (data : Oauth.TokenResponse)
    (hat : truthy comp.accessToken = true)
    (hexp : Oauth.isTokenExpired now comp.accessToken = true)
    (hrt : truthy (st.getItem "refresh_token") = true) :
    AuthProvider.getToken now comp st (Oauth.FetchOutcome.ok data) =
      { returned := data.access_token
        comp := { comp with accessToken := data.access_token, idToken := data.id_token }
        store := refreshedStore st data
        refreshCalls := 1 } := by
  unfold AuthProvider.getToken
  rw [hat, hexp]
  simp [Oauth.refreshAccessToken, hrt, refreshedStore]

/-- The failed-refresh branch of getToken. -/
theorem getToken_refresh_err_eq (now : Int) (comp : AuthProvider.CompState) (st : Store)
    (status : Nat) (m : Option String)
    (hat : truthy comp.accessToken = true)
    (hexp : Oauth.isTokenExpired now comp.accessToken = true)
    (hrt : truthy (st.getItem "refresh_token") = true) :
    AuthProvider.getToken now comp st (Oauth.FetchOutcome.httpError status m) =
      { returned := none
        comp := { comp with
          accessToken := none
          idToken := none
          isAuthenticated := false
          error := some "Session expired. Please log in again." }
        store := []
        refreshCalls := 1 } := by
  unfold AuthProvider.getToken
  rw [hat, hexp]
  simp [Oauth.refreshAccessToken, hrt]

/-- The refreshed storage holds the refreshed access token. -/
theorem refreshedStore_access (st : Store) (data : Oauth.TokenResponse) :
    (refreshedStore st data).getItem "access_token" = some (jsStr data.access_token) := by
  unfold refreshedStore
  by_cases h1 : truthy (jsOr data.refresh_token (some (jsStr (st.getItem "refresh_token")))) = true <;>
    by_cases h2 : truthy data.id_token = true <;>
    simp [h1, h2, getItem_setItem_self, getItem_setItem_of_ne]

/-- The refreshed storage holds the new refresh token whenever the
or-else of response and stored refresh token is truthy. -/
theorem refreshedStore_refresh (st : Store) (data : Oauth.TokenResponse)
    (h1 : truthy (jsOr data.refresh_token (some (jsStr (st.getItem "refresh_token")))) = true) :
    (refreshedStore st data).getItem "refresh_token"
      = some (jsStr (jsOr data.refresh_token (some (jsStr (st.getItem "refresh_token"))))) := by
  unfold refreshedStore
  by_cases h2 : truthy data.id_token = true <;>
    simp [h1, h2, getItem_setItem_self]

/-- C6: getToken never raises (it is a total function of its inputs, every
throw of the refresh call being caught): an unexpired access token is
returned unchanged with component state and storage untouched; an expired
one with a stored refresh token is refreshed, and on success the new
access token is persisted in session storage and returned; on refresh
failure session storage is cleared, the state drops to unauthenticated and
null is returned instead of an exception. -/
theorem getToken_spec (now : Int) (comp : AuthProvider.CompState) (st : Store)
    (outcome : Oauth.FetchOutcome) :
    (truthy comp.accessToken = true → Oauth.isTokenExpired now comp.accessToken = false →
      (AuthProvider.getToken now comp st outcome).returned = comp.accessToken
      ∧ (AuthProvider.getToken now comp st outcome).comp = comp
      ∧ (AuthProvider.getToken now comp st outcome).store = st
      ∧ (AuthProvider.getToken now comp st outcome).refreshCalls = 0)
    ∧ (∀ data, truthy comp.accessToken = true →
        Oauth.isTokenExpired now comp.accessToken = true →
        truthy (st.getItem "refresh_token") = true →
        outcome = Oauth.FetchOutcome.ok data → truthy data.access_token = true →
        (AuthProvider.getToken now comp st outcome).returned = data.access_token
        ∧ (AuthProvider.getToken now comp st outcome).store.getItem "access_token"
            = data.access_token)
    ∧ (∀ status m, truthy comp.accessToken = true →
        Oauth.isTokenExpired now comp.accessToken = true →
        truthy (st.getItem "refresh_token") = true →
        outcome = Oauth.FetchOutcome.httpError status m →
        (AuthProvider.getToken now comp st outcome).returned = none
        ∧ (AuthProvider.getToken now comp st outcome).store = []
        ∧ (AuthProvider.getToken now comp st outcome).comp.isAuthenticated = false) := by
  refine ⟨?_, ?_, ?_⟩
  · intro hat hexp
    rw [getToken_fresh_eq now comp st outcome hat hexp]
    exact ⟨rfl, rfl, rfl, rfl⟩
  · intro data hat hexp hrt hout hta
    subst hout
    rw [getToken_refresh_ok_eq now comp st data hat hexp hrt]
    refine ⟨rfl, ?_⟩
    show (refreshedStore st data).getItem "access_token" = data.access_token
    rw [refreshedStore_access]
    rcases (truthy_iff data.access_token).mp hta with ⟨s, hs, _⟩
    rw [hs]
    rfl
  · intro status m hat hexp hrt hout
    subst hout
    rw [getToken_refresh_err_eq now comp st status m hat hexp hrt]
    exact ⟨rfl, rfl, rfl⟩

/-- C6 witness: an expired stored token and a successful refresh, run at
a concrete instant. -/
theorem getToken_spec_witness :
    (AuthProvider.getToken 1700000000000 compW stRefresh
      (Oauth.FetchOutcome.ok keepTokData)).returned = some "newtok"
    ∧ (AuthProvider.getToken 1700000000000 compW stRefresh
        (Oauth.FetchOutcome.ok keepTokData)).store.getItem "access_token" = some "newtok" :=
  (getToken_spec 1700000000000 compW stRefresh
    (Oauth.FetchOutcome.ok keepTokData)).2.1 keepTokData (by decide)
    (by set_option maxRecDepth 4000 in decide) (by decide) rfl (by decide)

/-- C7: after a successful refresh inside getToken, the stored refresh
token equals the refresh token of the response when the response carries a
truthy one, and equals the previously stored refresh token otherwise (the
old value is retained, never dropped). -/
theorem getToken_refresh_rotation (now : Int) (comp : AuthProvider.CompState)
    (st : Store) (data : Oauth.TokenResponse) (rt : String)
    (hat : truthy comp.accessToken = true)
    (hexp : Oauth.isTokenExpired now comp.accessToken = true)
    (hrt : st.getItem "refresh_token" = some rt) (hrtne : rt ≠ "") :
    (truthy data.refresh_token = true →
      (AuthProvider.getToken now comp st (Oauth.FetchOutcome.ok data)).store.getItem
        "refresh_token" = data.refresh_token)
    ∧ (truthy data.refresh_token = false →
      (AuthProvider.getToken now comp st (Oauth.FetchOutcome.ok data)).store.getItem
        "refresh_token" = some rt) := by
  have htr : truthy (st.getItem "refresh_token") = true := by
    rw [hrt]
    simpa [truthy] using hrtne
  rw [getToken_refresh_ok_eq now comp st data hat hexp htr]
  constructor
  · intro hnew
    show (refreshedStore st data).getItem "refresh_token" = data.refresh_token
    have hor : jsOr data.refresh_token (some (jsStr (st.getItem "refresh_token")))
        = data.refresh_token := by
      simp [jsOr, hnew]
    rw [refreshedStore_refresh st data (by rw [hor]; exact hnew), hor]
    rcases (truthy_iff data.refresh_token).mp hnew with ⟨s, hs, _⟩
    rw [hs]
    rfl
  · intro hnew
    show (refreshedStore st data).getItem "refresh_token" = some rt
    have hor : jsOr data.refresh_token (some (jsStr (st.getItem "refresh_token")))
        = some (jsStr (st.getItem "refresh_token")) := by
      simp [jsOr, hnew]
    have hval : jsStr (st.getItem "refresh_token") = rt := by
      rw [hrt]
      rfl
    have htr2 : truthy (jsOr data.refresh_token (some (jsStr (st.getItem "refresh_token"))))
        = true := by
      rw [hor, hval]
      simpa [truthy] using hrtne
    rw [refreshedStore_refresh st data htr2, hor, hval]
    rfl

/-- C7 witness: a rotated refresh token and a response without one, at a
concrete instant (the stored refresh token is rt). -/
theorem getToken_refresh_rotation_witness :
    (AuthProvider.getToken 1700000000000 compW stRefresh
      (Oauth.FetchOutcome.ok rotTokData)).store.getItem "refresh_token" = some "rt2"
    ∧ (AuthProvider.getToken 1700000000000 compW stRefresh
        (Oauth.FetchOutcome.ok keepTokData)).store.getItem "refresh_token" = some "rt" :=
  ⟨(getToken_refresh_rotation 1700000000000 compW stRefresh rotTokData "rt" (by decide)
      (by set_option maxRecDepth 4000 in decide) rfl (by decide)).1 (by decide),
   (getToken_refresh_rotation 1700000000000 compW stRefresh keepTokData "rt" (by decide)
      (by set_option maxRecDepth 4000 in decide) rfl (by decide)).2 (by decide)⟩


/-! ## C8: single use of the per-login state and verifier -/

set_option maxRecDepth 4000 in
/-- C8 counterexample: a successful handleCallback run (the exchange ran
once and the URL was rewritten home) after which the stored CSRF state is
still in session storage: oauth_state is not deleted by the callback,
refuting the claim that both the state and the verifier are deleted. -/
theorem handleCallback_success_keeps_state_counterexample :
    (AuthProvider.handleCallback params0 st0 AuthProvider.initComp
      (Oauth.FetchOutcome.ok okData)).redirectedHome = true
    ∧ (AuthProvider.handleCallback params0 st0 AuthProvider.initComp
        (Oauth.FetchOutcome.ok okData)).store.getItem "oauth_state" = some "xyz" := by
  exact ⟨by decide, by decide⟩

/-- The success branch of handleCallback: its storage, exchange count and
redirect flag. -/
theorem handleCallback_success_store (params : Oauth.QueryParams) (st : Store)
    (data : Oauth.TokenResponse)
    (he : truthy params.error = false)
    (hs : (truthy params.state && !Oauth.verifyState st params.state) = false)
    (hc : truthy params.code = true)
    (hta : truthy data.access_token = true) :
    (AuthProvider.handleCallback params st AuthProvider.initComp
        (Oauth.FetchOutcome.ok data)).store = callbackStore st data
    ∧ (AuthProvider.handleCallback params st AuthProvider.initComp
        (Oauth.FetchOutcome.ok data)).exchangeCalls = 1
    ∧ (AuthProvider.handleCallback params st AuthProvider.initComp
        (Oauth.FetchOutcome.ok data)).redirectedHome = true := by
  unfold AuthProvider.handleCallback
  rw [he, hs, hc]
  cases hd : Oauth.decodeJWT (jsStr (jsOr data.id_token data.access_token)) <;>
    simp [Oauth.exchangeCodeForTokens, hta, hd, callbackStore]

/-- The verifier entry is gone from the success-path storage. -/
theorem callbackStore_verifier (st : Store) (data : Oauth.TokenResponse) :
    (callbackStore st data).getItem "code_verifier" = none := by
  unfold callbackStore
  cases hd : Oauth.decodeJWT (jsStr (jsOr data.id_token data.access_token)) <;>
    by_cases h2 : truthy data.id_token = true <;>
    by_cases h3 : truthy data.refresh_token = true <;>
    simp [hd, h2, h3, getItem_setItem_of_ne, getItem_removeItem_self]

/-- The stored CSRF state survives the success-path storage unchanged. -/
theorem callbackStore_state (st : Store) (data : Oauth.TokenResponse) :
    (callbackStore st data).getItem "oauth_state" = st.getItem "oauth_state" := by
  unfold callbackStore
  cases hd : Oauth.decodeJWT (jsStr (jsOr data.id_token data.access_token)) <;>
    by_cases h2 : truthy data.id_token = true <;>
    by_cases h3 : truthy data.refresh_token = true <;>
    simp [hd, h2, h3, getItem_setItem_of_ne, getItem_removeItem_of_ne]

/-- C8 (amended): the code verifier is single-use: the success path of
handleCallback removes code_verifier from session storage, but the stored
CSRF state oauth_state is retained there (it disappears only with the
clear on failure or logout); in the consolidated OAuthService revision the
exchange deletes both the verifier and the state. -/
theorem handleCallback_single_use_amended (params : Oauth.QueryParams) (st : Store)
    (data : Oauth.TokenResponse)
    (he : truthy params.error = false)
    (hs : (truthy params.state && !Oauth.verifyState st params.state) = false)
    (hc : truthy params.code = true)
    (hta : truthy data.access_token = true) :
    ((AuthProvider.handleCallback params st AuthProvider.initComp
        (Oauth.FetchOutcome.ok data)).store.getItem "code_verifier" = none
    ∧ (AuthProvider.handleCallback params st AuthProvider.initComp
        (Oauth.FetchOutcome.ok data)).store.getItem "oauth_state" = st.getItem "oauth_state")
    ∧ ∀ tokens : Oauth.TokenResult,
        (serviceStoreOf (OAuthService.exchangeCodeForTokens st
          (Except.ok tokens))).getItem "code_verifier" = none
        ∧ (serviceStoreOf (OAuthService.exchangeCodeForTokens st
            (Except.ok tokens))).getItem "oauth_state" = none := by
  refine ⟨⟨?_, ?_⟩, ?_⟩
  · rw [(handleCallback_success_store params st data he hs hc hta).1]
    exact callbackStore_verifier st data
  · rw [(handleCallback_success_store params st data he hs hc hta).1]
    exact callbackStore_state st data
  · intro tokens
    constructor
    · show Store.getItem (Store.removeItem (Store.removeItem _ "code_verifier") "oauth_state")
        "code_verifier" = none
      rw [getItem_removeItem_of_ne _ (by decide)]
      exact getItem_removeItem_self _ _
    · exact getItem_removeItem_self _ _

set_option maxRecDepth 4000 in
/-- C8 witness: the concrete successful callback and the concrete service
exchange. -/
theorem handleCallback_single_use_amended_witness :
    ((AuthProvider.handleCallback params0 st0 AuthProvider.initComp
        (Oauth.FetchOutcome.ok okData)).store.getItem "code_verifier" = none
    ∧ (AuthProvider.handleCallback params0 st0 AuthProvider.initComp
        (Oauth.FetchOutcome.ok okData)).store.getItem "oauth_state" = st0.getItem "oauth_state")
    ∧ (serviceStoreOf (OAuthService.exchangeCodeForTokens st0
        (Except.ok tokResW))).getItem "code_verifier" = none
    ∧ (serviceStoreOf (OAuthService.exchangeCodeForTokens st0
        (Except.ok tokResW))).getItem "oauth_state" = none :=
  have h := handleCallback_single_use_amended params0 st0 okData (by decide) (by decide)
    (by decide) (by decide)
  ⟨h.1, h.2 tokResW⟩

/-! ## C9: the state check only fires when a state parameter is present -/

/-- C9: for every callback URL whose query string carries a code but no
state parameter, handleCallback proceeds to the code-for-token exchange
(exactly one exchange call) whatever oauth_state session storage holds:
no CSRF verification happens, the state check being guarded by the
presence of the state parameter. -/
theorem handleCallback_missing_state_exchanges (params : Oauth.QueryParams)
    (st : Store) (c : String) (hcne : c ≠ "")
    (hpc : params.code = some c) (hps : params.state = none) (hpe : params.error = none)
    (outcome : Oauth.FetchOutcome) :
    (AuthProvider.handleCallback params st AuthProvider.initComp outcome).exchangeCalls
      = 1 := by
  have he : truthy params.error = false := by rw [hpe]; rfl
  have hs : (truthy params.state && !Oauth.verifyState st params.state) = false := by
    rw [hps]
    rfl
  have hcc : truthy params.code = true := by
    rw [hpc]
    simpa [truthy] using hcne
  cases outcome with
  | httpError status m =>
    rw [handleCallback_httpError_branch params st AuthProvider.initComp status m he hs hcc]
    rfl
  | ok data =>
    by_cases hta : truthy data.access_token = true
    · exact (handleCallback_success_store params st data he hs hcc hta).2.1
    · have hta' : truthy data.access_token = false := by simpa using hta
      rw [handleCallback_noToken_branch params st AuthProvider.initComp data he hs hcc hta']
      rfl

/-- C9 witness: storage holding a mismatching oauth_state, a code and no
state parameter: the exchange still runs once. -/
theorem handleCallback_missing_state_exchanges_witness :
    (AuthProvider.handleCallback
      { code := some "abc", state := none, error := none, errorDescription := none }
      [("oauth_state", "other")] AuthProvider.initComp
      (Oauth.FetchOutcome.ok okData)).exchangeCalls = 1 :=
  handleCallback_missing_state_exchanges
    { code := some "abc", state := none, error := none, errorDescription := none }
    [("oauth_state", "other")] "abc" (by decide) rfl rfl rfl
    (Oauth.FetchOutcome.ok okData)

/-! ## C10: query length validation of the backend endpoint -/

/-- C10: for every request with a Bearer authorization header and a string
query, the /api/query handler answers a 400 naming the maximum length
whenever the query exceeds 10000 characters, before any Trino query is
built; a non-empty query of at most 10000 characters passes this check and
reaches the Trino handoff. -/
theorem queryHandler_length_limit (h q : String)
    (hb : charsStartWith "Bearer ".toList h.toList = true) :
    (q.length > 10000 →
      Server.queryHandler (some h) (Server.QueryField.strVal q)
        = Server.HandlerOutcome.respond 400
            "Query exceeds maximum length of 10000 characters")
    ∧ (q ≠ "" → q.length ≤ 10000 →
      Server.queryHandler (some h) (Server.QueryField.strVal q)
        = Server.HandlerOutcome.trinoQuery (String.mk (h.toList.drop 7)) q) := by
  have hb' : charsStartWith ['B', 'e', 'a', 'r', 'e', 'r', ' '] h.data = true := hb
  constructor
  · intro hlong
    have hq : ¬ q = "" := by
      intro h0
      rw [h0] at hlong
      exact absurd hlong (by decide)
    simp [Server.queryHandler, hb', hq, hlong]
  · intro hq hlen
    have hle : ¬ q.length > 10000 := by omega
    simp [Server.queryHandler, hb', hq, hle, jsStr]

/-- C10 witness: a 10001-character query is rejected with the 400 message,
and a short query reaches the Trino handoff. -/
theorem queryHandler_length_limit_witness :
    Server.queryHandler (some "Bearer t") (Server.QueryField.strVal longQuery)
      = Server.HandlerOutcome.respond 400
          "Query exceeds maximum length of 10000 characters"
    ∧ Server.queryHandler (some "Bearer t") (Server.QueryField.strVal "SELECT 1")
      = Server.HandlerOutcome.trinoQuery "t" "SELECT 1" := by
  constructor
  · exact (queryHandler_length_limit "Bearer t" longQuery (by decide)).1 (by
      show (List.replicate 10001 'x').length > 10000
      rw [List.length_replicate]
      decide)
  · exact (queryHandler_length_limit "Bearer t" "SELECT 1" (by decide)).2
      (by decide) (by decide)
